import Mathlib

/-!
Verification of the futures-spot arbitrage calculator.

The development shallowly embeds the calculation engine of the repository:

* `calculateArbitrageReturn`, `calculateBreakEven`, `calculateSensitivity`,
  `getMarketCondition` from `src/utils/calculations.ts`;
* `validateFormRelationships`, `validateFieldRealTime`,
  `validateCompleteForm` from the form-validation module.

Modelling choices:

* `Decimal` values become exact rationals (`ℚ`).  The source configures
  `Decimal.js` with 28 significant digits, far beyond what the stated
  properties need; exact rational arithmetic is the idealisation of that
  substrate.
* Date-only `dayjs` values become integer epoch-day numbers (`ℤ`): the
  code uses dates only through `diff(·, 'day')` (difference of day
  numbers) and `subtract(1, 'day')` (predecessor day).  The helper
  `daysFromCivil` converts a civil calendar date to its day number, so
  concrete scenarios can be stated with real calendar dates.
* JS `throw` becomes `Except`; optional object fields become `Option`.
  A `Decimal` object is always truthy in JS, so the guards
  `depositLossRate ? … : 0` and `leverageRatio && leverageRatio.gt(0)`
  are modelled by matching on the `Option` (a present rate of `0`
  contributes a loss of `0`, exactly as the truthy branch does).
-/

/-- Civil calendar date (proleptic Gregorian). -/
structure Date where
  year : Int
  month : Int
  day : Int
deriving DecidableEq, Repr

/-- Day number of a civil date (days since 1970-01-01, Howard Hinnant's
`days_from_civil` algorithm, as used by date libraries such as dayjs for
whole-day differences of date-only values). -/
def daysFromCivil (date : Date) : Int :=
  let y : Int := if date.month ≤ 2 then date.year - 1 else date.year
  let era : Int := (if 0 ≤ y then y else y - 399) / 400
  let yoe : Int := y - era * 400
  let mp : Int := (date.month + 9) % 12
  let doy : Int := (153 * mp + 2) / 5 + date.day - 1
  let doe : Int := yoe * 365 + yoe / 4 - yoe / 100 + doy
  era * 146097 + doe - 719468

/-- `CalculationInput` from `types/index.ts`: prices and amounts are
decimals (modelled as `ℚ`), dates are day numbers, the three advanced
fields are optional. -/
structure CalculationInput where
  futurePrice : ℚ
  spotPrice : ℚ
  currentDate : Int
  maturityDate : Int
  annualInterestRate : ℚ
  transactionFeeRate : ℚ
  investmentAmount : ℚ
  depositLossRate : Option ℚ
  withdrawalLossRate : Option ℚ
  leverageRatio : Option ℚ
deriving DecidableEq, Repr

inductive RiskLevel
  | LOW
  | MEDIUM
  | HIGH
deriving DecidableEq, Repr

/-- The `leverage` record of `CalculationResult`. -/
structure LeverageRecord where
  leverageRatio : ℚ
  marginRequired : ℚ
  contractValue : ℚ
  liquidationPrice : ℚ
  leveragedProfit : ℚ
deriving DecidableEq, Repr

/-- The `breakdown` record of `CalculationResult`; `depositLoss` and
`withdrawalLoss` are optional object fields. -/
structure Breakdown where
  priceDifference : ℚ
  holdingCost : ℚ
  transactionCost : ℚ
  depositLoss : Option ℚ
  withdrawalLoss : Option ℚ
deriving DecidableEq, Repr

structure CalculationResult where
  annualizedReturn : ℚ
  holdingDays : Int
  totalReturn : ℚ
  actualProfit : ℚ
  annualizedProfit : ℚ
  riskLevel : RiskLevel
  breakdown : Breakdown
  leverage : Option LeverageRecord
deriving DecidableEq, Repr

/-- Domain errors thrown by `calculateArbitrageReturn` (the two `throw`
statements guarding the holding period). -/
inductive CalcError
  | maturityNotAfterCurrent
  | holdingPeriodTooLong
deriving DecidableEq, Repr

deriving instance DecidableEq for Except

/-- `maturity.diff(current, 'day')`. -/
def holdingDaysOf (input : CalculationInput) : Int :=
  input.maturityDate - input.currentDate

/-- `spotQuantity = investmentAmount.dividedBy(spotPrice)`. -/
def spotQuantity (input : CalculationInput) : ℚ :=
  input.investmentAmount / input.spotPrice

/-- `totalPriceDifference = priceDifferencePerUnit.times(spotQuantity)`. -/
def totalPriceDifference (input : CalculationInput) : ℚ :=
  (input.futurePrice - input.spotPrice) * spotQuantity input

/-- `holdingCostRate = annualInterestRate/100 × holdingDays / 365`. -/
def holdingCostRate (input : CalculationInput) (holdingDays : Int) : ℚ :=
  input.annualInterestRate / 100 * holdingDays / 365

/-- `holdingCost = investmentAmount.times(holdingCostRate)`. -/
def holdingCost (input : CalculationInput) (holdingDays : Int) : ℚ :=
  input.investmentAmount * holdingCostRate input holdingDays

/-- `totalTransactionFeeRate = transactionFeeRate/100 × 2`. -/
def totalTransactionFeeRate (input : CalculationInput) : ℚ :=
  input.transactionFeeRate / 100 * 2

/-- `transactionCost = investmentAmount.times(totalTransactionFeeRate)`. -/
def transactionCost (input : CalculationInput) : ℚ :=
  input.investmentAmount * totalTransactionFeeRate input

/-- `depositLoss = depositLossRate ? investmentAmount.times(depositLossRate/100) : 0`
(a `Decimal` object is truthy even when it is numerically `0`). -/
def depositLoss (input : CalculationInput) : ℚ :=
  match input.depositLossRate with
  | some rate => input.investmentAmount * (rate / 100)
  | none => 0

/-- `withdrawalLoss`, same pattern as `depositLoss`. -/
def withdrawalLoss (input : CalculationInput) : ℚ :=
  match input.withdrawalLossRate with
  | some rate => input.investmentAmount * (rate / 100)
  | none => 0

/-- `netProfit = totalPriceDifference − holdingCost − transactionCost −
depositLoss − withdrawalLoss` (unleveraged). -/
def netProfit (input : CalculationInput) (holdingDays : Int) : ℚ :=
  totalPriceDifference input - holdingCost input holdingDays -
    transactionCost input - depositLoss input - withdrawalLoss input

/-- `leveragedSpotQuantity = (investmentAmount × leverageRatio) / spotPrice`. -/
def leveragedSpotQuantity (input : CalculationInput) (ratio : ℚ) : ℚ :=
  input.investmentAmount * ratio / input.spotPrice

/-- `leveragedNetProfit`: price difference on the leveraged position minus
the same (unleveraged) costs. -/
def leveragedNetProfit (input : CalculationInput) (ratio : ℚ) (holdingDays : Int) : ℚ :=
  (input.futurePrice - input.spotPrice) * leveragedSpotQuantity input ratio -
    holdingCost input holdingDays - transactionCost input -
    depositLoss input - withdrawalLoss input

/-- `liquidationPrice = spotPrice − investmentAmount / leveragedSpotQuantity`. -/
def liquidationPrice (input : CalculationInput) (ratio : ℚ) : ℚ :=
  input.spotPrice - input.investmentAmount / leveragedSpotQuantity input ratio

/-- The net profit the return figures are computed from: the leveraged one
when `leverageRatio` is present and `> 0`, the unleveraged one otherwise. -/
def effectiveNetProfit (input : CalculationInput) (holdingDays : Int) : ℚ :=
  match input.leverageRatio with
  | some ratio =>
      if 0 < ratio then leveragedNetProfit input ratio holdingDays
      else netProfit input holdingDays
  | none => netProfit input holdingDays

/-- `annualizedReturn = netProfitRate × 365 / holdingDays × 100`, from the
effective (possibly leveraged) net profit. -/
def annualizedReturnOf (input : CalculationInput) (holdingDays : Int) : ℚ :=
  effectiveNetProfit input holdingDays / input.investmentAmount * 365 /
    holdingDays * 100

/-- The optional `leverage` record: present exactly when `leverageRatio`
is present and `> 0`. -/
def leverageRecordOf (input : CalculationInput) (holdingDays : Int) :
    Option LeverageRecord :=
  match input.leverageRatio with
  | some ratio =>
      if 0 < ratio then
        some { leverageRatio := ratio
               marginRequired := input.investmentAmount
               contractValue := input.investmentAmount * ratio
               liquidationPrice := liquidationPrice input ratio
               leveragedProfit := leveragedNetProfit input ratio holdingDays }
      else none
  | none => none

/-- `leverageRatio && leverageRatio.gt(1)` as a boolean. -/
def leverageAboveOne (input : CalculationInput) : Bool :=
  match input.leverageRatio with
  | some ratio => decide (1 < ratio)
  | none => false

/-- Risk classification: leverage `> 1` → HIGH; else `|annualizedReturn| < 5`
or `holdingDays > 180` → LOW; else `|annualizedReturn| < 15` or
`holdingDays > 90` → MEDIUM; else HIGH. -/
def riskLevelOf (input : CalculationInput) (holdingDays : Int) : RiskLevel :=
  let absReturn := |annualizedReturnOf input holdingDays|
  if leverageAboveOne input then RiskLevel.HIGH
  else if absReturn < 5 ∨ 180 < holdingDays then RiskLevel.LOW
  else if absReturn < 15 ∨ 90 < holdingDays then RiskLevel.MEDIUM
  else RiskLevel.HIGH

/-- The success branch of `calculateArbitrageReturn`: assembles the
result record for an admissible holding period. -/
def computeResult (input : CalculationInput) (holdingDays : Int) :
    CalculationResult :=
  { annualizedReturn := annualizedReturnOf input holdingDays
    holdingDays := holdingDays
    totalReturn := effectiveNetProfit input holdingDays / input.investmentAmount * 100
    actualProfit := effectiveNetProfit input holdingDays
    annualizedProfit :=
      input.investmentAmount * (annualizedReturnOf input holdingDays / 100)
    riskLevel := riskLevelOf input holdingDays
    breakdown :=
      { priceDifference := totalPriceDifference input
        holdingCost := holdingCost input holdingDays
        transactionCost := transactionCost input
        depositLoss :=
          if 0 < depositLoss input then some (depositLoss input) else none
        withdrawalLoss :=
          if 0 < withdrawalLoss input then some (withdrawalLoss input) else none }
    leverage := leverageRecordOf input holdingDays }

/-- `calculateArbitrageReturn` from `calculations.ts`: throws when the
holding period is `≤ 0` or `> 365`, otherwise returns the assembled
result. -/
def calculateArbitrageReturn (input : CalculationInput) :
    Except CalcError CalculationResult :=
  let holdingDays := holdingDaysOf input
  if holdingDays ≤ 0 then Except.error CalcError.maturityNotAfterCurrent
  else if 365 < holdingDays then Except.error CalcError.holdingPeriodTooLong
  else Except.ok (computeResult input holdingDays)

/-- `calculateBreakEven` from `calculations.ts`: the pair
`(breakEvenFuturePrice, breakEvenSpotPrice)`. -/
def calculateBreakEven (input : CalculationInput) : ℚ × ℚ :=
  let holdingDays := holdingDaysOf input
  let hcRate := input.annualInterestRate / 100 * holdingDays / 365
  let feeRate := input.transactionFeeRate / 100 * 2
  (input.spotPrice * (1 + hcRate + feeRate),
   input.spotPrice / (1 + hcRate + feeRate))

/-- `calculateSensitivity` from `calculations.ts`: the base calculation
and three perturbed recalculations, sequenced exactly as in the source
(the first `throw` aborts the whole analysis). -/
def calculateSensitivity (input : CalculationInput) :
    Except CalcError (ℚ × ℚ × ℚ) := do
  let baseResult ← calculateArbitrageReturn input
  let interestResult ← calculateArbitrageReturn
    { input with annualInterestRate := input.annualInterestRate + 1 }
  let timeResult ← calculateArbitrageReturn
    { input with maturityDate := input.maturityDate - 1 }
  let priceResult ← calculateArbitrageReturn
    { input with spotPrice := input.spotPrice * (101 / 100) }
  Except.ok
    (interestResult.annualizedReturn - baseResult.annualizedReturn,
     timeResult.annualizedReturn - baseResult.annualizedReturn,
     priceResult.annualizedReturn - baseResult.annualizedReturn)

inductive MarketKind
  | CONTANGO
  | BACKWARDATION
  | NEUTRAL
deriving DecidableEq, Repr

structure MarketCondition where
  condition : MarketKind
  premium : ℚ
  premiumPercent : ℚ
deriving DecidableEq, Repr

/-- `getMarketCondition` from `calculations.ts`. -/
def getMarketCondition (futurePrice spotPrice : ℚ) : MarketCondition :=
  let premium := futurePrice - spotPrice
  let premiumPercent := premium / spotPrice * 100
  { condition :=
      if 1 / 2 < premiumPercent then MarketKind.CONTANGO
      else if premiumPercent < -(1 / 2) then MarketKind.BACKWARDATION
      else MarketKind.NEUTRAL
    premium := premium
    premiumPercent := premiumPercent }

/-- The day-number conversion pins 1970-01-01 to day 0. -/
theorem daysFromCivil_epoch : daysFromCivil ⟨1970, 1, 1⟩ = 0 := by decide

/-- 2024-01-01 to 2024-04-01 is 91 days. -/
theorem daysFromCivil_scenario1 :
    daysFromCivil ⟨2024, 4, 1⟩ - daysFromCivil ⟨2024, 1, 1⟩ = 91 := by decide

/-!
## Form validation (`validation.ts`)

Form fields are strings in the source; a numeric field is modelled as
`Option ℚ` (`none` = empty/absent, `some x` = a parseable value `x`) and a
date field as `Option Int` (day number).  Error and warning messages are
modelled as an enumeration, one constructor per (field, rule) message.
-/

structure FormData where
  investmentAmount : Option ℚ
  futurePrice : Option ℚ
  spotPrice : Option ℚ
  currentDate : Option Int
  maturityDate : Option Int
  annualInterestRate : Option ℚ
  transactionFeeRate : Option ℚ
  depositLossRate : Option ℚ
  withdrawalLossRate : Option ℚ
  leverageRatio : Option ℚ
deriving DecidableEq, Repr

/-- Blocking validation messages of the form-validation module. -/
inductive FormError
  | requiredInvestmentAmount
  | requiredFuturePrice
  | requiredSpotPrice
  | requiredCurrentDate
  | requiredMaturityDate
  | requiredAnnualInterestRate
  | requiredTransactionFeeRate
  | investmentNotPositive
  | investmentInvalidPrice
  | futurePriceNotPositive
  | futurePriceInvalidPrice
  | spotPriceNotPositive
  | spotPriceInvalidPrice
  | interestRateNegative
  | interestRateInvalidRate
  | feeRateNegative
  | feeRateInvalidPercentage
  | maturityNotAfterCurrent
  | holdingTooLong
  | holdingTooShort
  | priceDiffTooLarge
  | totalCostRateTooHigh
  | leverageNotPositive
  | leverageTooHigh
deriving DecidableEq, Repr

/-- Non-blocking warning messages of the form-validation module. -/
inductive FormWarning
  | lowInvestment
  | highInvestment
  | highFuturePrice
  | highSpotPrice
  | highInterestRate
  | highFeeRate
  | longMaturity
  | highDepositLoss
  | highWithdrawalLoss
  | moderateLeverage
  | highLeverage
deriving DecidableEq, Repr

/-- `validateFormRelationships`: cross-field checks (dates, price
divergence, combined cost rate). -/
def validateFormRelationships (f : FormData) : List FormError :=
  (match f.currentDate, f.maturityDate with
   | some current, some maturity =>
       (if ¬ current < maturity then [FormError.maturityNotAfterCurrent] else []) ++
       (if 365 < maturity - current then [FormError.holdingTooLong] else []) ++
       (if maturity - current < 1 then [FormError.holdingTooShort] else [])
   | _, _ => []) ++
  (match f.futurePrice, f.spotPrice with
   | some future, some spot =>
       if 50 < |(future - spot) / spot * 100| then [FormError.priceDiffTooLarge]
       else []
   | _, _ => []) ++
  (match f.annualInterestRate, f.transactionFeeRate with
   | some interestRate, some feeRate =>
       if 30 < interestRate + feeRate * 2 then [FormError.totalCostRateTooHigh]
       else []
   | _, _ => [])

/-- Result record of `validateFieldRealTime` / `validateCompleteForm`. -/
structure ValidationOutcome where
  isValid : Bool
  errors : List FormError
  warnings : List FormWarning
deriving DecidableEq, Repr

/-- `validateFieldRealTime` case `'investmentAmount'`: rules
`positive` + `validPrice`, warnings below 1000 / above 10000000. -/
def realTimeInvestmentAmount (value : Option ℚ) : ValidationOutcome :=
  match value with
  | none => ⟨true, [], []⟩
  | some x =>
      let errors :=
        (if x ≤ 0 then [FormError.investmentNotPositive] else []) ++
        (if x ≤ 0 ∨ 1000000 < x then [FormError.investmentInvalidPrice] else [])
      let warnings :=
        if x < 1000 then [FormWarning.lowInvestment]
        else if 10000000 < x then [FormWarning.highInvestment]
        else []
      ⟨errors.isEmpty, errors, warnings⟩

/-- `validateFieldRealTime` case `'futurePrice'`. -/
def realTimeFuturePrice (value : Option ℚ) : ValidationOutcome :=
  match value with
  | none => ⟨true, [], []⟩
  | some x =>
      let errors :=
        (if x ≤ 0 then [FormError.futurePriceNotPositive] else []) ++
        (if x ≤ 0 ∨ 1000000 < x then [FormError.futurePriceInvalidPrice] else [])
      let warnings := if 100000 < x then [FormWarning.highFuturePrice] else []
      ⟨errors.isEmpty, errors, warnings⟩

/-- `validateFieldRealTime` case `'spotPrice'`. -/
def realTimeSpotPrice (value : Option ℚ) : ValidationOutcome :=
  match value with
  | none => ⟨true, [], []⟩
  | some x =>
      let errors :=
        (if x ≤ 0 then [FormError.spotPriceNotPositive] else []) ++
        (if x ≤ 0 ∨ 1000000 < x then [FormError.spotPriceInvalidPrice] else [])
      let warnings := if 100000 < x then [FormWarning.highSpotPrice] else []
      ⟨errors.isEmpty, errors, warnings⟩

/-- `validateFieldRealTime` case `'annualInterestRate'`: rules
`nonNegative` + `validRate`, warning above 10. -/
def realTimeAnnualInterestRate (value : Option ℚ) : ValidationOutcome :=
  match value with
  | none => ⟨true, [], []⟩
  | some x =>
      let errors :=
        (if x < 0 then [FormError.interestRateNegative] else []) ++
        (if x < 0 ∨ 50 < x then [FormError.interestRateInvalidRate] else [])
      let warnings := if 10 < x then [FormWarning.highInterestRate] else []
      ⟨errors.isEmpty, errors, warnings⟩

/-- `validateFieldRealTime` case `'transactionFeeRate'`: rules
`nonNegative` + `percentage`, warning above 1. -/
def realTimeTransactionFeeRate (value : Option ℚ) : ValidationOutcome :=
  match value with
  | none => ⟨true, [], []⟩
  | some x =>
      let errors :=
        (if x < 0 then [FormError.feeRateNegative] else []) ++
        (if x < 0 ∨ 100 < x then [FormError.feeRateInvalidPercentage] else [])
      let warnings := if 1 < x then [FormWarning.highFeeRate] else []
      ⟨errors.isEmpty, errors, warnings⟩

/-- `validateFieldRealTime` case `'currentDate'`: every modelled date is
a valid date, so the `validDate` rule never fires. -/
def realTimeCurrentDate (_value : Option Int) : ValidationOutcome :=
  ⟨true, [], []⟩

/-- `validateFieldRealTime` case `'maturityDate'`: warns when the
maturity is more than 180 days after today. -/
def realTimeMaturityDate (today : Int) (value : Option Int) :
    ValidationOutcome :=
  match value with
  | none => ⟨true, [], []⟩
  | some d =>
      let warnings := if 180 < d - today then [FormWarning.longMaturity] else []
      ⟨true, [], warnings⟩

/-- `validateFieldRealTime` case `'leverageRatio'`: errors when not
positive or above 100, warnings above 10 (high) or above 5 (moderate). -/
def realTimeLeverageRatio (value : Option ℚ) : ValidationOutcome :=
  match value with
  | none => ⟨true, [], []⟩
  | some x =>
      if x ≤ 0 then ⟨false, [FormError.leverageNotPositive], []⟩
      else if 100 < x then ⟨false, [FormError.leverageTooHigh], []⟩
      else if 10 < x then ⟨true, [], [FormWarning.highLeverage]⟩
      else if 5 < x then ⟨true, [], [FormWarning.moderateLeverage]⟩
      else ⟨true, [], []⟩

/-- The required-field error for each of the seven required fields. -/
def requiredErrors (f : FormData) : List FormError :=
  (if f.investmentAmount = none then [FormError.requiredInvestmentAmount] else []) ++
  (if f.futurePrice = none then [FormError.requiredFuturePrice] else []) ++
  (if f.spotPrice = none then [FormError.requiredSpotPrice] else []) ++
  (if f.currentDate = none then [FormError.requiredCurrentDate] else []) ++
  (if f.maturityDate = none then [FormError.requiredMaturityDate] else []) ++
  (if f.annualInterestRate = none then [FormError.requiredAnnualInterestRate] else []) ++
  (if f.transactionFeeRate = none then [FormError.requiredTransactionFeeRate] else [])

/-- `validateCompleteForm`: required-field errors, then the per-field
real-time validation of the seven required fields only (`requiredFields`
in the source — the optional `leverageRatio`, `depositLossRate` and
`withdrawalLossRate` are not in that list), then the relationship
errors.  `today` is the wall-clock date read by `dayjs()` inside the
maturity-date check. -/
def validateCompleteForm (today : Int) (f : FormData) : ValidationOutcome :=
  let fieldOutcomes : List ValidationOutcome :=
    [realTimeInvestmentAmount f.investmentAmount,
     realTimeFuturePrice f.futurePrice,
     realTimeSpotPrice f.spotPrice,
     realTimeCurrentDate f.currentDate,
     realTimeMaturityDate today f.maturityDate,
     realTimeAnnualInterestRate f.annualInterestRate,
     realTimeTransactionFeeRate f.transactionFeeRate]
  let errors := (requiredErrors f ++
    (fieldOutcomes.map ValidationOutcome.errors).flatten ++
    validateFormRelationships f).dedup
  let warnings := ((fieldOutcomes.map ValidationOutcome.warnings).flatten).dedup
  ⟨errors.isEmpty, errors, warnings⟩

/-!
## Helper lemmas
-/

/-- A successful calculation determines the result record and bounds the
holding period. -/
theorem calc_ok_cases {input : CalculationInput} {r : CalculationResult}
    (hok : calculateArbitrageReturn input = Except.ok r) :
    r = computeResult input (holdingDaysOf input) ∧
    0 < holdingDaysOf input ∧ holdingDaysOf input ≤ 365 := by
  unfold calculateArbitrageReturn at hok
  by_cases h1 : holdingDaysOf input ≤ 0
  · simp [h1] at hok
  · by_cases h2 : 365 < holdingDaysOf input
    · simp [h1, h2] at hok
    · simp [h1, h2] at hok
      exact ⟨hok.symm, by omega, by omega⟩

/-- An admissible holding period makes the calculation succeed. -/
theorem calc_ok_intro (input : CalculationInput)
    (h1 : 0 < holdingDaysOf input) (h2 : holdingDaysOf input ≤ 365) :
    calculateArbitrageReturn input =
      Except.ok (computeResult input (holdingDaysOf input)) := by
  unfold calculateArbitrageReturn
  rw [if_neg (by omega), if_neg (by omega)]

/-- The concrete input of example scenario 1 of the specification. -/
def scenario1 : CalculationInput :=
  { futurePrice := 3050
    spotPrice := 3000
    currentDate := daysFromCivil ⟨2024, 1, 1⟩
    maturityDate := daysFromCivil ⟨2024, 4, 1⟩
    annualInterestRate := 7 / 2
    transactionFeeRate := 1 / 20
    investmentAmount := 100000
    depositLossRate := none
    withdrawalLossRate := none
    leverageRatio := none }

/-- C1: on scenario 1 (investment 100000, future 3050, spot 3000,
2024-01-01 → 2024-04-01, rate 3.5 %, fee 0.05 %, no leverage/losses) the
calculation succeeds with holdingDays = 91, price difference
50 × (100000/3000) ≈ 1666.67, holding cost 100000 × 0.035 × 91/365 ≈ 872.60,
transaction cost 100, net profit ≈ 694.07 and annualized return ≈ 2.78. -/
theorem scenario1_figures :
    ∃ r, calculateArbitrageReturn scenario1 = Except.ok r ∧
      r.holdingDays = 91 ∧
      r.breakdown.priceDifference = 50 * (100000 / 3000) ∧
      |r.breakdown.priceDifference - 1666.67| < 1 / 100 ∧
      r.breakdown.holdingCost = 100000 * (35 / 1000) * 91 / 365 ∧
      |r.breakdown.holdingCost - 872.60| < 1 / 100 ∧
      r.breakdown.transactionCost = 100 ∧
      r.actualProfit = r.breakdown.priceDifference - r.breakdown.holdingCost -
        r.breakdown.transactionCost ∧
      |r.actualProfit - 694.07| < 1 / 100 ∧
      r.annualizedReturn = r.actualProfit / 100000 * 365 / 91 * 100 ∧
      |r.annualizedReturn - 2.78| < 1 / 100 := by
  have hpd : totalPriceDifference scenario1 = 5000 / 3 := by
    norm_num [totalPriceDifference, spotQuantity, scenario1]
  have hhc : holdingCost scenario1 91 = 63700 / 73 := by
    norm_num [holdingCost, holdingCostRate, scenario1]
  have htc : transactionCost scenario1 = 100 := by
    norm_num [transactionCost, totalTransactionFeeRate, scenario1]
  have hnp : effectiveNetProfit scenario1 91 = 152000 / 219 := by
    rw [show effectiveNetProfit scenario1 91 = netProfit scenario1 91 from rfl,
      netProfit, hpd, htc,
      show depositLoss scenario1 = 0 from rfl,
      show withdrawalLoss scenario1 = 0 from rfl, hhc]
    norm_num
  have har : annualizedReturnOf scenario1 91 = 760 / 273 := by
    rw [annualizedReturnOf, hnp]
    norm_num [scenario1]
  have hd : holdingDaysOf scenario1 = 91 := by decide
  have hok := calc_ok_intro scenario1 (by rw [hd]; norm_num) (by rw [hd]; norm_num)
  rw [hd] at hok
  refine ⟨computeResult scenario1 91, hok, ?_⟩
  simp only [computeResult]
  rw [hpd, hhc, htc, hnp, har]
  norm_num [abs_lt]

/-- C2: the calculation fails exactly when the day difference is ≤ 0 or
> 365, and otherwise reports that exact day difference as holdingDays. -/
theorem calculate_error_iff (input : CalculationInput) :
    ((∃ e, calculateArbitrageReturn input = Except.error e) ↔
      (input.maturityDate - input.currentDate ≤ 0 ∨
        365 < input.maturityDate - input.currentDate)) ∧
    ∀ r, calculateArbitrageReturn input = Except.ok r →
      r.holdingDays = input.maturityDate - input.currentDate := by
  constructor
  · constructor
    · rintro ⟨e, he⟩
      by_contra hcon
      push_neg at hcon
      rw [calc_ok_intro input (by simpa [holdingDaysOf] using hcon.1)
        (le_of_not_lt (by simpa [holdingDaysOf] using hcon.2))] at he
      exact Except.noConfusion he
    · intro h
      unfold calculateArbitrageReturn holdingDaysOf
      rcases h with h | h
      · exact ⟨CalcError.maturityNotAfterCurrent, by rw [if_pos h]⟩
      · refine ⟨CalcError.holdingPeriodTooLong, ?_⟩
        rw [if_neg (by omega), if_pos h]
  · intro r hok
    rw [(calc_ok_cases hok).1]
    rfl

/-- Witness for C2 at a concrete rejected and a concrete accepted input. -/
theorem calculate_error_iff_witness :
    (∃ e, calculateArbitrageReturn { scenario1 with maturityDate := scenario1.currentDate } =
      Except.error e) ∧
    ∀ r, calculateArbitrageReturn scenario1 = Except.ok r →
      r.holdingDays = scenario1.maturityDate - scenario1.currentDate :=
  ⟨(calculate_error_iff _).1.mpr (by decide),
   (calculate_error_iff scenario1).2⟩

/-- Example scenario 2: scenario 1 with leverage ratio 3. -/
def scenario2 : CalculationInput := { scenario1 with leverageRatio := some 3 }

/-- C3: with `leverageRatio = some ratio`, `ratio > 0`, the top-level
figures are recomputed from the leveraged net profit (price difference on
the leveraged quantity minus the unleveraged costs), the breakdown keeps
the unleveraged price difference, and the leverage record holds
`marginRequired = investmentAmount`, `contractValue = investmentAmount ×
ratio` and `liquidationPrice = spotPrice − investmentAmount /
leveragedSpotQuantity`. -/
theorem leveraged_result (input : CalculationInput) (r : CalculationResult)
    (ratio : ℚ) (hlev : input.leverageRatio = some ratio) (hpos : 0 < ratio)
    (hok : calculateArbitrageReturn input = Except.ok r) :
    r.actualProfit =
      (input.futurePrice - input.spotPrice) *
        (input.investmentAmount * ratio / input.spotPrice) -
      holdingCost input r.holdingDays - transactionCost input -
      depositLoss input - withdrawalLoss input ∧
    r.annualizedReturn =
      r.actualProfit / input.investmentAmount * 365 / r.holdingDays * 100 ∧
    r.totalReturn = r.actualProfit / input.investmentAmount * 100 ∧
    r.annualizedProfit = input.investmentAmount * (r.annualizedReturn / 100) ∧
    r.breakdown.priceDifference =
      (input.futurePrice - input.spotPrice) *
        (input.investmentAmount / input.spotPrice) ∧
    r.leverage = some
      { leverageRatio := ratio
        marginRequired := input.investmentAmount
        contractValue := input.investmentAmount * ratio
        liquidationPrice :=
          input.spotPrice - input.investmentAmount /
            (input.investmentAmount * ratio / input.spotPrice)
        leveragedProfit := r.actualProfit } := by
  obtain ⟨hr, -, -⟩ := calc_ok_cases hok
  subst hr
  simp only [computeResult, annualizedReturnOf, effectiveNetProfit,
    leverageRecordOf, hlev, if_pos hpos, leveragedNetProfit,
    leveragedSpotQuantity, liquidationPrice, totalPriceDifference,
    spotQuantity]
  simp

/-- Witness for C3: scenario 2 instantiates the leverage record. -/
theorem leveraged_result_witness :
    (computeResult scenario2 91).leverage = some
      { leverageRatio := 3
        marginRequired := scenario2.investmentAmount
        contractValue := scenario2.investmentAmount * 3
        liquidationPrice :=
          scenario2.spotPrice - scenario2.investmentAmount /
            (scenario2.investmentAmount * 3 / scenario2.spotPrice)
        leveragedProfit := (computeResult scenario2 91).actualProfit } := by
  have hd : holdingDaysOf scenario2 = 91 := by decide
  have hok := calc_ok_intro scenario2 (by rw [hd]; norm_num) (by rw [hd]; norm_num)
  rw [hd] at hok
  exact (leveraged_result scenario2 _ 3 rfl (by norm_num) hok).2.2.2.2.2

/-- C4: risk level by first match — leverage > 1 → HIGH, else
|annualizedReturn| < 5 or holdingDays > 180 → LOW, else
|annualizedReturn| < 15 or holdingDays > 90 → MEDIUM, else HIGH; in
particular any leverage ratio > 1 yields HIGH. -/
theorem risk_priority (input : CalculationInput) (r : CalculationResult)
    (hok : calculateArbitrageReturn input = Except.ok r) :
    (∀ ratio, input.leverageRatio = some ratio → 1 < ratio →
      r.riskLevel = RiskLevel.HIGH) ∧
    ((∀ ratio, input.leverageRatio = some ratio → ratio ≤ 1) →
      ((|r.annualizedReturn| < 5 ∨ 180 < r.holdingDays →
          r.riskLevel = RiskLevel.LOW) ∧
        (¬(|r.annualizedReturn| < 5 ∨ 180 < r.holdingDays) →
          ((|r.annualizedReturn| < 15 ∨ 90 < r.holdingDays →
              r.riskLevel = RiskLevel.MEDIUM) ∧
            (¬(|r.annualizedReturn| < 15 ∨ 90 < r.holdingDays) →
              r.riskLevel = RiskLevel.HIGH))))) := by
  obtain ⟨hr, -, -⟩ := calc_ok_cases hok
  subst hr
  simp only [computeResult, riskLevelOf]
  constructor
  · intro ratio hlev hgt
    have htrue : leverageAboveOne input = true := by
      unfold leverageAboveOne
      rw [hlev]
      simpa using hgt
    rw [htrue]
    simp
  · intro hle
    have hfalse : leverageAboveOne input = false := by
      unfold leverageAboveOne
      cases hl : input.leverageRatio with
      | none => rfl
      | some ratio => simpa using not_lt.mpr (hle ratio hl)
    rw [hfalse]
    simp only [Bool.false_eq_true, if_false]
    constructor
    · intro h
      rw [if_pos h]
    · intro h
      rw [if_neg h]
      constructor
      · intro h2
        rw [if_pos h2]
      · intro h2
        rw [if_neg h2]

/-- Witness for C4: scenario 2 (leverage 3 > 1) is classified HIGH. -/
theorem risk_priority_witness :
    (computeResult scenario2 91).riskLevel = RiskLevel.HIGH := by
  have hd : holdingDaysOf scenario2 = 91 := by decide
  have hok := calc_ok_intro scenario2 (by rw [hd]; norm_num) (by rw [hd]; norm_num)
  rw [hd] at hok
  exact (risk_priority scenario2 _ hok).1 3 rfl (by norm_num)

/-- Scenario 1 with a 10 % deposit loss rate. -/
def scenario5 : CalculationInput := { scenario1 with depositLossRate := some 10 }

/-- Scenario 5 with its break-even future price fed back in as the
future price, all other fields unchanged. -/
def scenario5Fed : CalculationInput :=
  { scenario5 with futurePrice := (calculateBreakEven scenario5).1 }

/-- C5 counterexample: for the valid input `scenario5` (positive deposit
loss rate), feeding the break-even future price back in yields an
annualized return below −40, not ≈ 0. -/
theorem breakEven_feedback_not_zero :
    ∃ r, calculateArbitrageReturn scenario5Fed = Except.ok r ∧
      r.annualizedReturn < -40 := by
  have hd : holdingDaysOf scenario5Fed = 91 := by decide
  have hok := calc_ok_intro scenario5Fed (by rw [hd]; norm_num) (by rw [hd]; norm_num)
  rw [hd] at hok
  refine ⟨computeResult scenario5Fed 91, hok, ?_⟩
  have hfp : scenario5Fed.futurePrice = 3000 * (1 + 7 / 2 / 100 * 91 / 365 + 1 / 20 / 100 * 2) := by
    show (calculateBreakEven scenario5).1 = _
    have hd5 : holdingDaysOf scenario5 = 91 := by decide
    simp only [calculateBreakEven, hd5]
    norm_num [scenario5, scenario1]
  show annualizedReturnOf scenario5Fed 91 < -40
  rw [annualizedReturnOf,
    show effectiveNetProfit scenario5Fed 91 = netProfit scenario5Fed 91 from rfl,
    netProfit, totalPriceDifference, spotQuantity, holdingCost, holdingCostRate,
    transactionCost, totalTransactionFeeRate,
    show depositLoss scenario5Fed = 100000 * (10 / 100) from rfl,
    show withdrawalLoss scenario5Fed = 0 from rfl, hfp]
  norm_num [scenario5Fed, scenario5, scenario1]

/-- C5 (amended): for every valid input whose deposit and withdrawal
losses are zero and whose leverage is absent or exactly 1, replacing the
future price by the break-even future price yields annualized return
exactly 0. -/
theorem breakEven_feedback_zero (input : CalculationInput)
    (hsp : 0 < input.spotPrice)
    (h1 : 0 < holdingDaysOf input) (h2 : holdingDaysOf input ≤ 365)
    (hdep : depositLoss input = 0) (hwd : withdrawalLoss input = 0)
    (hlev : input.leverageRatio = none ∨ input.leverageRatio = some 1) :
    ∃ r, calculateArbitrageReturn
        { input with futurePrice := (calculateBreakEven input).1 } =
          Except.ok r ∧
      r.annualizedReturn = 0 := by
  set input' : CalculationInput :=
    { input with futurePrice := (calculateBreakEven input).1 } with hinput'
  have hdays : holdingDaysOf input' = holdingDaysOf input := rfl
  have hok := calc_ok_intro input' (by rw [hdays]; exact h1) (by rw [hdays]; exact h2)
  rw [hdays] at hok
  refine ⟨computeResult input' (holdingDaysOf input), hok, ?_⟩
  have hnp : netProfit input' (holdingDaysOf input) = 0 := by
    rw [netProfit, totalPriceDifference, spotQuantity, holdingCost,
      holdingCostRate, transactionCost, totalTransactionFeeRate,
      show depositLoss input' = depositLoss input from rfl,
      show withdrawalLoss input' = withdrawalLoss input from rfl, hdep, hwd]
    have hfp : input'.futurePrice =
        input.spotPrice * (1 + input.annualInterestRate / 100 *
          (holdingDaysOf input) / 365 + input.transactionFeeRate / 100 * 2) :=
      rfl
    have hsame : input'.spotPrice = input.spotPrice := rfl
    have hsame2 : input'.investmentAmount = input.investmentAmount := rfl
    have hsame3 : input'.annualInterestRate = input.annualInterestRate := rfl
    have hsame4 : input'.transactionFeeRate = input.transactionFeeRate := rfl
    rw [hfp, hsame, hsame2, hsame3, hsame4]
    field_simp
    ring
  have heff : effectiveNetProfit input' (holdingDaysOf input) = 0 := by
    rw [effectiveNetProfit]
    have hlev' : input'.leverageRatio = input.leverageRatio := rfl
    rcases hlev with h | h
    · rw [hlev', h]
      exact hnp
    · rw [hlev', h]
      have heq : leveragedNetProfit input' 1 (holdingDaysOf input) =
          netProfit input' (holdingDaysOf input) := by
        rw [leveragedNetProfit, leveragedSpotQuantity, netProfit,
          totalPriceDifference, spotQuantity]
        ring
      show (if (0 : ℚ) < 1 then leveragedNetProfit input' 1 (holdingDaysOf input)
        else netProfit input' (holdingDaysOf input)) = 0
      rw [if_pos (by norm_num : (0 : ℚ) < 1), heq]
      exact hnp
  show annualizedReturnOf input' (holdingDaysOf input) = 0
  rw [annualizedReturnOf, heff]
  simp

/-- Witness for the amended C5: scenario 1 (no losses, no leverage) fed
its break-even future price returns exactly 0. -/
theorem breakEven_feedback_zero_witness :
    ∃ r, calculateArbitrageReturn
        { scenario1 with futurePrice := (calculateBreakEven scenario1).1 } =
          Except.ok r ∧
      r.annualizedReturn = 0 :=
  breakEven_feedback_zero scenario1 (by norm_num [scenario1])
    (by decide) (by decide) rfl rfl (Or.inl rfl)

/-- C6: for positive prices, `getMarketCondition` reports
`premium = futurePrice − spotPrice`,
`premiumPercent = premium/spotPrice × 100`, and classifies CONTANGO
exactly above 0.5, BACKWARDATION exactly below −0.5, NEUTRAL otherwise;
a premium percentage of exactly 0.5 is NEUTRAL. -/
theorem marketCondition_classification (futurePrice spotPrice : ℚ)
    (hf : 0 < futurePrice) (hs : 0 < spotPrice) :
    (getMarketCondition futurePrice spotPrice).premium =
      futurePrice - spotPrice ∧
    (getMarketCondition futurePrice spotPrice).premiumPercent =
      (futurePrice - spotPrice) / spotPrice * 100 ∧
    ((getMarketCondition futurePrice spotPrice).condition = MarketKind.CONTANGO ↔
      1 / 2 < (getMarketCondition futurePrice spotPrice).premiumPercent) ∧
    ((getMarketCondition futurePrice spotPrice).condition =
        MarketKind.BACKWARDATION ↔
      (getMarketCondition futurePrice spotPrice).premiumPercent < -(1 / 2)) ∧
    ((getMarketCondition futurePrice spotPrice).condition = MarketKind.NEUTRAL ↔
      (-(1 / 2) ≤ (getMarketCondition futurePrice spotPrice).premiumPercent ∧
        (getMarketCondition futurePrice spotPrice).premiumPercent ≤ 1 / 2)) ∧
    ((getMarketCondition futurePrice spotPrice).premiumPercent = 1 / 2 →
      (getMarketCondition futurePrice spotPrice).condition =
        MarketKind.NEUTRAL) := by
  have hprem : (getMarketCondition futurePrice spotPrice).premium =
      futurePrice - spotPrice := rfl
  have hpp : (getMarketCondition futurePrice spotPrice).premiumPercent =
      (futurePrice - spotPrice) / spotPrice * 100 := rfl
  have hcond : (getMarketCondition futurePrice spotPrice).condition =
      (if 1 / 2 < (futurePrice - spotPrice) / spotPrice * 100 then
        MarketKind.CONTANGO
      else if (futurePrice - spotPrice) / spotPrice * 100 < -(1 / 2) then
        MarketKind.BACKWARDATION
      else MarketKind.NEUTRAL) := rfl
  simp only [hprem, hpp, hcond]
  set pp := (futurePrice - spotPrice) / spotPrice * 100 with hppdef
  by_cases h1 : 1 / 2 < pp
  · rw [if_pos h1]
    refine ⟨trivial, trivial, ⟨fun _ => h1, fun _ => rfl⟩, ?_, ?_, ?_⟩
    · exact ⟨fun h => absurd h (by decide), fun h => absurd h (by linarith)⟩
    · exact ⟨fun h => absurd h (by decide), fun h => absurd h.2 (by linarith)⟩
    · intro h
      rw [h] at h1
      norm_num at h1
  · rw [if_neg h1]
    by_cases h2 : pp < -(1 / 2)
    · rw [if_pos h2]
      refine ⟨trivial, trivial, ?_, ⟨fun _ => h2, fun _ => rfl⟩, ?_, ?_⟩
      · exact ⟨fun h => absurd h (by decide), fun h => absurd h h1⟩
      · exact ⟨fun h => absurd h (by decide), fun h => absurd h.1 (by linarith)⟩
      · intro h
        rw [h] at h2
        norm_num at h2
    · rw [if_neg h2]
      push_neg at h1 h2
      refine ⟨trivial, trivial, ?_, ?_, ⟨fun _ => ⟨h2, h1⟩, fun _ => rfl⟩, fun _ => rfl⟩
      · exact ⟨fun h => absurd h (by decide), fun h => absurd h (not_lt.mpr h1)⟩
      · exact ⟨fun h => absurd h (by decide), fun h => absurd h (not_lt.mpr h2)⟩

/-- Witness for C6 at the exact 0.5 boundary: future 201, spot 200. -/
theorem marketCondition_classification_witness :
    (getMarketCondition 201 200).premiumPercent = 1 / 2 ∧
    (getMarketCondition 201 200).condition = MarketKind.NEUTRAL := by
  have h := marketCondition_classification 201 200 (by norm_num) (by norm_num)
  have hpp : (getMarketCondition 201 200).premiumPercent = 1 / 2 := by
    rw [h.2.1]
    norm_num
  exact ⟨hpp, h.2.2.2.2.2 hpp⟩

/-- C7: whenever both rates are present and
`annualInterestRate + 2 × transactionFeeRate > 30`, the cross-field form
validation reports the total-cost-rate error. -/
theorem totalCostRate_error (f : FormData) (interestRate feeRate : ℚ)
    (hir : f.annualInterestRate = some interestRate)
    (hfr : f.transactionFeeRate = some feeRate)
    (h : 30 < interestRate + 2 * feeRate) :
    FormError.totalCostRateTooHigh ∈ validateFormRelationships f := by
  unfold validateFormRelationships
  rw [hir, hfr]
  have h' : 30 < interestRate + feeRate * 2 := by linarith
  refine List.mem_append.mpr (Or.inr ?_)
  show FormError.totalCostRateTooHigh ∈
    (if 30 < interestRate + feeRate * 2 then [FormError.totalCostRateTooHigh]
      else [])
  rw [if_pos h']
  simp

/-- Witness for C7: interest 20, fee 6 (20 + 12 > 30). -/
theorem totalCostRate_error_witness :
    FormError.totalCostRateTooHigh ∈ validateFormRelationships
      { investmentAmount := none, futurePrice := none, spotPrice := none
        currentDate := none, maturityDate := none
        annualInterestRate := some 20, transactionFeeRate := some 6
        depositLossRate := none, withdrawalLossRate := none
        leverageRatio := none } :=
  totalCostRate_error _ 20 6 rfl rfl (by norm_num)

/-- A complete form with leverage ratio 20 and unremarkable required
fields. -/
def formC8 : FormData :=
  { investmentAmount := some 100000
    futurePrice := some 3050
    spotPrice := some 3000
    currentDate := some 0
    maturityDate := some 91
    annualInterestRate := some 4
    transactionFeeRate := some 1
    depositLossRate := none
    withdrawalLossRate := none
    leverageRatio := some 20 }

/-- C8 counterexample: `formC8` has leverageRatio 20, above both the
moderate (5) and high (10) thresholds, yet the complete-form validation
returns an empty warnings list — the leverage-risk warning is absent. -/
theorem completeForm_no_leverage_warning :
    formC8.leverageRatio = some 20 ∧ (10 : ℚ) < 20 ∧
    (validateCompleteForm 0 formC8).warnings = [] := by
  refine ⟨rfl, by norm_num, ?_⟩
  norm_num [validateCompleteForm, realTimeInvestmentAmount,
    realTimeFuturePrice, realTimeSpotPrice, realTimeCurrentDate,
    realTimeMaturityDate, realTimeAnnualInterestRate,
    realTimeTransactionFeeRate, formC8]

theorem realTimeInvestmentAmount_warning_mem {v : Option ℚ} {w : FormWarning}
    (hw : w ∈ (realTimeInvestmentAmount v).warnings) :
    w = FormWarning.lowInvestment ∨ w = FormWarning.highInvestment := by
  cases v with
  | none => simp [realTimeInvestmentAmount] at hw
  | some x =>
      by_cases h1 : x < 1000
      · simp [realTimeInvestmentAmount, h1] at hw
        simp [hw]
      · by_cases h2 : 10000000 < x
        · simp [realTimeInvestmentAmount, h1, h2] at hw
          simp [hw]
        · simp [realTimeInvestmentAmount, h1, h2] at hw

theorem realTimeFuturePrice_warning_mem {v : Option ℚ} {w : FormWarning}
    (hw : w ∈ (realTimeFuturePrice v).warnings) :
    w = FormWarning.highFuturePrice := by
  cases v with
  | none => simp [realTimeFuturePrice] at hw
  | some x =>
      by_cases h1 : 100000 < x
      · simp [realTimeFuturePrice, h1] at hw
        simp [hw]
      · simp [realTimeFuturePrice, h1] at hw

theorem realTimeSpotPrice_warning_mem {v : Option ℚ} {w : FormWarning}
    (hw : w ∈ (realTimeSpotPrice v).warnings) :
    w = FormWarning.highSpotPrice := by
  cases v with
  | none => simp [realTimeSpotPrice] at hw
  | some x =>
      by_cases h1 : 100000 < x
      · simp [realTimeSpotPrice, h1] at hw
        simp [hw]
      · simp [realTimeSpotPrice, h1] at hw

theorem realTimeAnnualInterestRate_warning_mem {v : Option ℚ} {w : FormWarning}
    (hw : w ∈ (realTimeAnnualInterestRate v).warnings) :
    w = FormWarning.highInterestRate := by
  cases v with
  | none => simp [realTimeAnnualInterestRate] at hw
  | some x =>
      by_cases h1 : 10 < x
      · simp [realTimeAnnualInterestRate, h1] at hw
        simp [hw]
      · simp [realTimeAnnualInterestRate, h1] at hw

theorem realTimeTransactionFeeRate_warning_mem {v : Option ℚ} {w : FormWarning}
    (hw : w ∈ (realTimeTransactionFeeRate v).warnings) :
    w = FormWarning.highFeeRate := by
  cases v with
  | none => simp [realTimeTransactionFeeRate] at hw
  | some x =>
      by_cases h1 : 1 < x
      · simp [realTimeTransactionFeeRate, h1] at hw
        simp [hw]
      · simp [realTimeTransactionFeeRate, h1] at hw

theorem realTimeMaturityDate_warning_mem {today : Int} {v : Option Int}
    {w : FormWarning} (hw : w ∈ (realTimeMaturityDate today v).warnings) :
    w = FormWarning.longMaturity := by
  cases v with
  | none => simp [realTimeMaturityDate] at hw
  | some d =>
      by_cases h1 : 180 < d - today
      · simp [realTimeMaturityDate, h1] at hw
        simp [hw]
      · simp [realTimeMaturityDate, h1] at hw

/-- Any warning of the complete-form validation comes from one of the
seven required fields; none of those produce leverage warnings. -/
theorem completeForm_warning_mem {today : Int} {f : FormData} {w : FormWarning}
    (hw : w ∈ (validateCompleteForm today f).warnings) :
    w ≠ FormWarning.moderateLeverage ∧ w ≠ FormWarning.highLeverage := by
  have hw' : w ∈ (realTimeInvestmentAmount f.investmentAmount).warnings ∨
      w ∈ (realTimeFuturePrice f.futurePrice).warnings ∨
      w ∈ (realTimeSpotPrice f.spotPrice).warnings ∨
      w ∈ (realTimeCurrentDate f.currentDate).warnings ∨
      w ∈ (realTimeMaturityDate today f.maturityDate).warnings ∨
      w ∈ (realTimeAnnualInterestRate f.annualInterestRate).warnings ∨
      w ∈ (realTimeTransactionFeeRate f.transactionFeeRate).warnings := by
    simpa [validateCompleteForm, List.mem_dedup] using hw
  rcases hw' with h | h | h | h | h | h | h
  · rcases realTimeInvestmentAmount_warning_mem h with h' | h' <;> simp [h']
  · simp [realTimeFuturePrice_warning_mem h]
  · simp [realTimeSpotPrice_warning_mem h]
  · simp [realTimeCurrentDate] at h
  · simp [realTimeMaturityDate_warning_mem h]
  · simp [realTimeAnnualInterestRate_warning_mem h]
  · simp [realTimeTransactionFeeRate_warning_mem h]

/-- C8 (amended): the leverage-risk warnings are produced by the
real-time single-field validation of `leverageRatio` (non-blocking —
`isValid` stays true), while the complete-form validation, which only
validates the seven required fields, never returns them. -/
theorem leverage_warning_location (x : ℚ) (h5 : 5 < x) (h100 : x ≤ 100) :
    ((10 < x →
        (realTimeLeverageRatio (some x)).warnings = [FormWarning.highLeverage]) ∧
      (x ≤ 10 →
        (realTimeLeverageRatio (some x)).warnings =
          [FormWarning.moderateLeverage]) ∧
      (realTimeLeverageRatio (some x)).isValid = true) ∧
    ∀ today f, FormWarning.moderateLeverage ∉ (validateCompleteForm today f).warnings ∧
      FormWarning.highLeverage ∉ (validateCompleteForm today f).warnings := by
  have hx0 : ¬ x ≤ 0 := by linarith
  have hx100 : ¬ 100 < x := not_lt.mpr h100
  constructor
  · by_cases h10 : 10 < x
    · refine ⟨fun _ => ?_, fun hle => absurd h10 (not_lt.mpr hle), ?_⟩ <;>
        simp [realTimeLeverageRatio, hx0, hx100, h10]
    · refine ⟨fun h => absurd h h10, fun _ => ?_, ?_⟩ <;>
        simp [realTimeLeverageRatio, hx0, hx100, h10, h5]
  · intro today f
    constructor <;> intro hmem
    · exact (completeForm_warning_mem hmem).1 rfl
    · exact (completeForm_warning_mem hmem).2 rfl

/-- Witness for the amended C8 at leverage ratio 20. -/
theorem leverage_warning_location_witness :
    (realTimeLeverageRatio (some 20)).warnings = [FormWarning.highLeverage] :=
  ((leverage_warning_location 20 (by norm_num) (by norm_num)).1).1 (by norm_num)

theorem exceptBindOk {ε α β : Type} (a : α) (f : α → Except ε β) :
    (Except.ok a >>= f) = f a := rfl

/-- C9: on any input with a one-day holding period — the lower boundary
the validator accepts — the sensitivity analysis fails, because the
time-sensitivity perturbation moves the maturity one day earlier and the
resulting zero-day recalculation throws. -/
theorem sensitivity_fails_at_one_day (input : CalculationInput)
    (h1 : holdingDaysOf input = 1) :
    calculateSensitivity input =
      Except.error CalcError.maturityNotAfterCurrent := by
  have hbase := calc_ok_intro input (by omega) (by omega)
  have hdint : holdingDaysOf
      { input with annualInterestRate := input.annualInterestRate + 1 } = 1 := h1
  have hint := calc_ok_intro
    { input with annualInterestRate := input.annualInterestRate + 1 }
    (by omega) (by omega)
  have htime : calculateArbitrageReturn
      { input with maturityDate := input.maturityDate - 1 } =
      Except.error CalcError.maturityNotAfterCurrent := by
    have hd : holdingDaysOf
        { input with maturityDate := input.maturityDate - 1 } ≤ 0 := by
      show input.maturityDate - 1 - input.currentDate ≤ 0
      have : input.maturityDate - input.currentDate = 1 := h1
      omega
    unfold calculateArbitrageReturn
    rw [if_pos hd]
  rw [calculateSensitivity, hbase, exceptBindOk, hint, exceptBindOk, htime]
  rfl

/-- Witness for C9: scenario 1 shortened to a one-day holding period. -/
theorem sensitivity_fails_at_one_day_witness :
    calculateSensitivity
      { scenario1 with maturityDate := scenario1.currentDate + 1 } =
      Except.error CalcError.maturityNotAfterCurrent :=
  sensitivity_fails_at_one_day _ (by decide)

theorem loss_option_aux {inv : ℚ} (hinv : 0 < inv) (rate : Option ℚ)
    (loss : ℚ)
    (hloss : loss = match rate with
      | some q => inv * (q / 100)
      | none => 0) :
    ((∃ x, (if 0 < loss then some loss else none) = some x) ↔
      ∃ q, rate = some q ∧ 0 < q) ∧
    (rate = some 0 → (if 0 < loss then some loss else none) = none ∧ loss = 0) := by
  cases rate with
  | none =>
      subst hloss
      simp
  | some q =>
      simp only [] at hloss
      subst hloss
      by_cases hq : 0 < q
      · have hpos : 0 < inv * (q / 100) :=
          mul_pos hinv (div_pos hq (by norm_num))
        rw [if_pos hpos]
        constructor
        · exact ⟨fun _ => ⟨q, rfl, hq⟩, fun _ => ⟨_, rfl⟩⟩
        · intro h0
          injection h0 with h0
          subst h0
          norm_num at hq
      · have hnpos : ¬ 0 < inv * (q / 100) := by
          intro h
          have hqle : q ≤ 0 := le_of_not_lt hq
          nlinarith
        rw [if_neg hnpos]
        constructor
        · constructor
          · rintro ⟨x, hx⟩
            exact Option.noConfusion hx
          · rintro ⟨p, hp, hp0⟩
            injection hp with hp
            subst hp
            exact absurd hp0 hq
        · intro h0
          injection h0 with h0
          subst h0
          norm_num

/-- C10: the breakdown's depositLoss (withdrawalLoss) entry is present
iff the corresponding rate was provided and strictly positive; a
provided rate of exactly 0 leaves the entry absent while the loss
subtracted in the net-profit formula is 0. -/
theorem breakdown_loss_presence (input : CalculationInput)
    (r : CalculationResult) (hinv : 0 < input.investmentAmount)
    (hok : calculateArbitrageReturn input = Except.ok r) :
    ((∃ x, r.breakdown.depositLoss = some x) ↔
      ∃ q, input.depositLossRate = some q ∧ 0 < q) ∧
    ((∃ x, r.breakdown.withdrawalLoss = some x) ↔
      ∃ q, input.withdrawalLossRate = some q ∧ 0 < q) ∧
    (input.depositLossRate = some 0 →
      r.breakdown.depositLoss = none ∧ depositLoss input = 0) ∧
    (input.withdrawalLossRate = some 0 →
      r.breakdown.withdrawalLoss = none ∧ withdrawalLoss input = 0) := by
  obtain ⟨hr, -, -⟩ := calc_ok_cases hok
  subst hr
  simp only [computeResult]
  have hd := loss_option_aux hinv input.depositLossRate (depositLoss input) rfl
  have hw := loss_option_aux hinv input.withdrawalLossRate (withdrawalLoss input) rfl
  exact ⟨hd.1, hw.1, hd.2, hw.2⟩

/-- Scenario 1 with a provided-but-zero deposit loss rate and a positive
withdrawal loss rate. -/
def scenario10 : CalculationInput :=
  { scenario1 with depositLossRate := some 0, withdrawalLossRate := some 2 }

/-- Witness for C10: rate 0 present → entry absent; rate 2 present →
entry present. -/
theorem breakdown_loss_presence_witness :
    (computeResult scenario10 91).breakdown.depositLoss = none ∧
    ∃ x, (computeResult scenario10 91).breakdown.withdrawalLoss = some x := by
  have hdays : holdingDaysOf scenario10 = 91 := by decide
  have hok := calc_ok_intro scenario10 (by omega) (by omega)
  rw [hdays] at hok
  have h := breakdown_loss_presence scenario10 _
    (by norm_num [scenario10, scenario1]) hok
  exact ⟨(h.2.2.1 rfl).1, h.2.1.mpr ⟨2, rfl, by norm_num⟩⟩
